import Mathlib

/-!
Verification of the Generic Tag Association Store of the Learn-Django
repository.

The data model is embedded from `src/tags/models.py`:

* `Tag` has an auto primary key `id` and a `lable` field declared as
  `CharField(max_length=255)` (the source spells the field `lable`).
* `TaggedItem` has an auto primary key `id`, a `tag` foreign key with
  `on_delete=CASCADE`, a `content_type` foreign key (to the content-type
  registry, `on_delete=CASCADE`), and `object_id` declared as a
  `PositiveIntegerField` (a non-negative integer column).

The access operations (`tag`, `untag`, `tagsFor`, `itemsFor`, `resolve`,
tag deletion with cascade) are not present under `src/`; they are the
store API of spec section 4.1, so they are modelled from the spec, with
the schema constraints of `src/tags/models.py` (the `tag` foreign key,
the `content_type` foreign key, the `PositiveIntegerField` column)
supplying the integrity checks.  Re-tagging is modelled as
duplicate-insert, matching the source schema, which declares no
uniqueness constraint on `(tag, content_type, object_id)`.
-/

namespace TagStore

/-- Embedded from `src/tags/models.py` lines 8-9: `class Tag` with an auto
`id` primary key and `lable = models.CharField(max_length=255)`. -/
structure Tag where
  id : Nat
  lable : String
deriving Repr, DecidableEq

/-- Embedded from `src/tags/models.py` lines 11-23: `class TaggedItem` with
an auto `id` primary key, `tag` foreign key, `content_type` discriminator
(the target type name) and `object_id` (`PositiveIntegerField`, modelled as
an `Int` with a non-negativity constraint enforced at insertion). -/
structure TaggedItem where
  id : Nat
  tag_id : Nat
  content_type : String
  object_id : Int
deriving Repr, DecidableEq

/-- Modelled from the spec: error kinds of section 7. `notFound` is
`NotFoundError` (referenced tag absent), `configuration` is
`ConfigurationError` (unregistered target type), `integrity` is a
storage-layer constraint violation (the `PositiveIntegerField` check of
`src/tags/models.py` line 22). -/
inductive StoreError where
  | notFound
  | configuration
  | integrity
deriving Repr, DecidableEq

/-- Modelled from the spec: a per-type resolver registered externally,
mapping a raw identifier to the entity payload when the target exists. -/
def Resolver : Type := Int → Option Nat

/-- Modelled from the spec: the state of the Generic Tag Association Store.
`tags` and `items` are the two tables of `src/tags/models.py`; `registry`
maps each registered target-type discriminator to its resolver (the role
the `ContentType` table plays in the source); the counters assign the auto
primary keys (Django keys start at 1). -/
structure Store where
  tags : List Tag
  items : List TaggedItem
  registry : List (String × Resolver)
  nextTagId : Nat
  nextItemId : Nat

/-- The resolver registered for a target type, if any. -/
def registered (s : Store) (ttype : String) : Option Resolver :=
  (s.registry.find? (fun p => p.1 = ttype)).map Prod.snd

/-- The `Tag` row with the given primary key, if any. -/
def findTag (s : Store) (tagId : Nat) : Option Tag :=
  s.tags.find? (fun t => t.id = tagId)

/-- Modelled from the spec: creation of a `Tag` by an operator action.  The
label column is `CharField(max_length=255)` (`src/tags/models.py` line 9),
so a longer label violates the column constraint and is rejected. -/
def createTag (s : Store) (label : String) : Except StoreError (Tag × Store) :=
  if 255 < label.length then .error .integrity
  else
    .ok (⟨s.nextTagId, label⟩,
      { s with tags := s.tags ++ [⟨s.nextTagId, label⟩], nextTagId := s.nextTagId + 1 })

/-- Modelled from the spec: `tag(tag_id, target_type, target_id)` of
section 4.1.  Fails with `NotFoundError` if the tag does not exist (the
`tag` foreign key of `src/tags/models.py` line 13); fails with
`ConfigurationError` if the target type is not registered (the
`content_type` foreign key of line 21); fails with an integrity error on a
negative identifier (the `PositiveIntegerField` of line 22).  Otherwise it
inserts a fresh row — duplicate-insert on re-tagging, since the source
declares no uniqueness constraint. -/
def tagOp (s : Store) (tagId : Nat) (ttype : String) (targetId : Int) :
    Except StoreError (TaggedItem × Store) :=
  match findTag s tagId with
  | none => .error .notFound
  | some _ =>
    match registered s ttype with
    | none => .error .configuration
    | some _ =>
      if targetId < 0 then .error .integrity
      else
        .ok (⟨s.nextItemId, tagId, ttype, targetId⟩,
          { s with items := s.items ++ [⟨s.nextItemId, tagId, ttype, targetId⟩],
                   nextItemId := s.nextItemId + 1 })

/-- Whether a `TaggedItem` row is the association `(tagId, ttype, targetId)`. -/
def rowMatches (r : TaggedItem) (tagId : Nat) (ttype : String) (targetId : Int) : Bool :=
  r.tag_id == tagId && r.content_type == ttype && r.object_id == targetId

/-- Modelled from the spec: `untag(tag_id, target_type, target_id)` of
section 4.1 — delete-by-filter of every matching row, returning whether a
row was removed; absence is not an error. -/
def untag (s : Store) (tagId : Nat) (ttype : String) (targetId : Int) : Bool × Store :=
  (s.items.any (fun r => rowMatches r tagId ttype targetId),
   { s with items := s.items.filter (fun r => !rowMatches r tagId ttype targetId) })

/-- Modelled from the spec: `tagsFor(target_type, target_id)` of section
4.1 — all tags applied to the given entity.  An unregistered target type is
a `ConfigurationError`; no matching row is an empty result. -/
def tagsFor (s : Store) (ttype : String) (targetId : Int) : Except StoreError (List Tag) :=
  match registered s ttype with
  | none => .error .configuration
  | some _ =>
    .ok ((s.items.filter (fun r => r.content_type == ttype && r.object_id == targetId)).filterMap
      (fun r => findTag s r.tag_id))

/-- Modelled from the spec: `itemsFor(tag_id, target_type)` of section 4.1
— all entity identifiers of the given type carrying the tag.  An
unregistered target type is a `ConfigurationError`. -/
def itemsFor (s : Store) (tagId : Nat) (ttype : String) : Except StoreError (List Int) :=
  match registered s ttype with
  | none => .error .configuration
  | some _ =>
    .ok ((s.items.filter (fun r => r.tag_id == tagId && r.content_type == ttype)).map
      (fun r => r.object_id))

/-- Modelled from the spec: `resolve(target_type, target_id)` of section
4.1 — delegates to the externally registered per-type resolver.  An
unregistered type is a `ConfigurationError`; a registered type with a
missing identifier is `ok none` ("not found"), not an error. -/
def resolve (s : Store) (ttype : String) (targetId : Int) : Except StoreError (Option Nat) :=
  match registered s ttype with
  | none => .error .configuration
  | some r => .ok (r targetId)

/-- Modelled from the spec: deletion of a `Tag`.  The `tag` foreign key of
`src/tags/models.py` line 13 carries `on_delete=models.CASCADE`, so every
`TaggedItem` row referencing the tag is deleted with it. -/
def deleteTag (s : Store) (tagId : Nat) : Store :=
  { s with tags := s.tags.filter (fun t => t.id != tagId),
           items := s.items.filter (fun r => r.tag_id != tagId) }

/-- Modelled from the spec: deletion of a target entity.  The store holds
no row for the target; the only visible effect is that the type's resolver
stops finding the identifier.  No cascade runs from the target side
(section 3, Lifecycle). -/
def deleteTarget (s : Store) (ttype : String) (targetId : Int) : Store :=
  { s with registry := s.registry.map (fun p =>
      if p.1 = ttype then (p.1, fun i => if i = targetId then none else p.2 i) else p) }

/-- The operations that change the store state. -/
inductive Op where
  | createTag (label : String)
  | applyTag (tagId : Nat) (ttype : String) (targetId : Int)
  | removeTag (tagId : Nat) (ttype : String) (targetId : Int)
  | deleteTag (tagId : Nat)
  | deleteTarget (ttype : String) (targetId : Int)

/-- One step of the store: the state after running an operation (a failed
operation leaves the state unchanged). -/
def Store.apply (s : Store) : Op → Store
  | .createTag label =>
    match createTag s label with
    | .ok (_, s2) => s2
    | .error _ => s
  | .applyTag tagId ttype targetId =>
    match tagOp s tagId ttype targetId with
    | .ok (_, s2) => s2
    | .error _ => s
  | .removeTag tagId ttype targetId => (untag s tagId ttype targetId).2
  | .deleteTag tagId => deleteTag s tagId
  | .deleteTarget ttype targetId => deleteTarget s ttype targetId

/-- The initial state: empty tables, the resolvers registered at startup
(spec section 4.1: registered at composition time), auto keys from 1. -/
def initStore (R : List (String × Resolver)) : Store :=
  ⟨[], [], R, 1, 1⟩

/-- The states reachable from the initial state by store operations. -/
inductive Reachable (R : List (String × Resolver)) : Store → Prop where
  | init : Reachable R (initStore R)
  | step {s : Store} (op : Op) : Reachable R s → Reachable R (s.apply op)

/-- A concrete resolver for the example `product` type: products 1-99
exist. -/
def productResolver : Resolver :=
  fun i => if 0 ≤ i ∧ i < 100 then some i.toNat else none

/-- The example registry: only the `product` type is registered. -/
def exampleRegistry : List (String × Resolver) := [("product", productResolver)]

/-- The state after the operator creates the tag `sale` (auto id 1). -/
def saleStore : Store :=
  (initStore exampleRegistry).apply (Op.createTag "sale")

/-- The scenario state of spec section 8: tag `sale` (auto id 1) created,
then applied to product 42, then to product 7. -/
def scenarioStore : Store :=
  (saleStore.apply (Op.applyTag 1 "product" 42)).apply (Op.applyTag 1 "product" 7)

/-- The `TaggedItem` row produced by applying tag 1 to product 42 in
`saleStore`. -/
def tagged42Row : TaggedItem := ⟨1, 1, "product", 42⟩

/-- The state after tag 1 is applied to product 42 in `saleStore`. -/
def tagged42Store : Store := saleStore.apply (Op.applyTag 1 "product" 42)

/-- The scenario state extended with a second tag `featured` (auto id 2)
also applied to product 42. -/
def richStore : Store :=
  (scenarioStore.apply (Op.createTag "featured")).apply (Op.applyTag 2 "product" 42)

/-- The scenario state after tag 1 is applied to product 42 a second time
(duplicate-insert: the source schema has no uniqueness constraint). -/
def retagStore : Store := scenarioStore.apply (Op.applyTag 1 "product" 42)

/-- The invariant maintained by every store operation: rows only reference
non-negative target identifiers and registered target types, and every tag
label fits the 255-character column. -/
def StoreInv (s : Store) : Prop :=
  (∀ r ∈ s.items, 0 ≤ r.object_id ∧ (registered s r.content_type).isSome = true) ∧
  (∀ t ∈ s.tags, t.lable.length ≤ 255)

end TagStore

namespace TagStore

/-- A tag row found by primary key carries that primary key. -/
theorem findTag_id {s : Store} {tagId : Nat} {t : Tag} (h : findTag s tagId = some t) :
    t.id = tagId := by
  unfold findTag at h
  simpa using List.find?_some h

/-- `registered` reads only the registry. -/
theorem registered_congr {s1 s2 : Store} (h : s1.registry = s2.registry) (ttype : String) :
    registered s1 ttype = registered s2 ttype := by
  unfold registered
  rw [h]

/-- `findTag` reads only the tag table. -/
theorem findTag_congr {s1 s2 : Store} (h : s1.tags = s2.tags) (tagId : Nat) :
    findTag s1 tagId = findTag s2 tagId := by
  unfold findTag
  rw [h]

/-- Searching a registry by name is unaffected by a map that preserves
names. -/
theorem find_fst_map (g : String × Resolver → String × Resolver)
    (hg : ∀ p, (g p).1 = p.1) (l : List (String × Resolver)) (t : String) :
    ((l.map g).find? (fun q => q.1 = t)).isSome = (l.find? (fun q => q.1 = t)).isSome := by
  induction l with
  | nil => rfl
  | cons p l ih =>
    by_cases h : p.1 = t
    · rw [List.map_cons, List.find?_cons_of_pos _ (by simp [hg p, h]),
        List.find?_cons_of_pos _ (by simp [h])]
      rfl
    · rw [List.map_cons, List.find?_cons_of_neg _ (by simp [hg p, h]),
        List.find?_cons_of_neg _ (by simp [h])]
      exact ih

/-- Deleting a target entity never unregisters a target type: only the
resolver's answers change. -/
theorem registered_isSome_deleteTarget (s : Store) (ttype t : String) (targetId : Int) :
    (registered (deleteTarget s ttype targetId) t).isSome = (registered s t).isSome := by
  unfold registered deleteTarget
  rw [Option.isSome_map', Option.isSome_map']
  exact find_fst_map _ (fun p => by by_cases h : p.1 = ttype <;> simp [h]) s.registry t

/-- Structure of a successful `createTag`: the tag table grows by the new
row, nothing else changes, and the stored label fits the column. -/
theorem createTag_ok {s : Store} {label : String} {t : Tag} {s2 : Store}
    (h : createTag s label = .ok (t, s2)) :
    s2.tags = s.tags ++ [t] ∧ s2.items = s.items ∧ s2.registry = s.registry ∧
    t.lable = label ∧ t.lable.length ≤ 255 := by
  unfold createTag at h
  by_cases hl : 255 < label.length
  · rw [if_pos hl] at h
    exact absurd h (by simp)
  · rw [if_neg hl] at h
    simp only [Except.ok.injEq, Prod.mk.injEq] at h
    obtain ⟨ht, hs2⟩ := h
    subst ht
    subst hs2
    exact ⟨rfl, rfl, rfl, rfl, le_of_not_lt hl⟩

/-- Structure of a successful `tag` operation: the item table grows by the
new row, nothing else changes, the row records exactly the requested
association, and the preconditions held. -/
theorem tagOp_ok {s : Store} {tagId : Nat} {ttype : String} {targetId : Int}
    {row : TaggedItem} {s2 : Store}
    (h : tagOp s tagId ttype targetId = .ok (row, s2)) :
    s2.tags = s.tags ∧ s2.items = s.items ++ [row] ∧ s2.registry = s.registry ∧
    row.tag_id = tagId ∧ row.content_type = ttype ∧ row.object_id = targetId ∧
    0 ≤ targetId ∧ (registered s ttype).isSome = true ∧ (findTag s tagId).isSome = true := by
  unfold tagOp at h
  cases hf : findTag s tagId with
  | none =>
    rw [hf] at h
    exact absurd h (by simp)
  | some t =>
    rw [hf] at h
    cases hr : registered s ttype with
    | none =>
      rw [hr] at h
      exact absurd h (by simp)
    | some r =>
      rw [hr] at h
      by_cases hneg : targetId < 0
      · rw [if_pos hneg] at h
        exact absurd h (by simp)
      · rw [if_neg hneg] at h
        simp only [Except.ok.injEq, Prod.mk.injEq] at h
        obtain ⟨hrow, hs2⟩ := h
        subst hrow
        subst hs2
        exact ⟨rfl, rfl, rfl, rfl, rfl, rfl, le_of_not_lt hneg, rfl, rfl⟩

/-- Every reachable state satisfies the store invariant. -/
theorem reachable_inv {R : List (String × Resolver)} {s : Store} (hs : Reachable R s) :
    StoreInv s := by
  induction hs with
  | init =>
    exact ⟨fun r hr => absurd hr (List.not_mem_nil r), fun t ht => absurd ht (List.not_mem_nil t)⟩
  | step op hs ih =>
    obtain ⟨hitems, htags⟩ := ih
    rename_i s
    cases op with
    | createTag label =>
      cases hc : createTag s label with
      | error e =>
        simpa only [Store.apply, hc] using ⟨hitems, htags⟩
      | ok a =>
        obtain ⟨t, s2⟩ := a
        obtain ⟨ht2, hi2, hreg, _, hlen⟩ := createTag_ok hc
        simp only [Store.apply, hc]
        constructor
        · intro r hr
          rw [hi2] at hr
          have hrr := hitems r hr
          exact ⟨hrr.1, by rw [registered_congr hreg]; exact hrr.2⟩
        · intro t2 ht2mem
          rw [ht2] at ht2mem
          rcases List.mem_append.mp ht2mem with hmem | hmem
          · exact htags t2 hmem
          · rw [List.mem_singleton.mp hmem]
            exact hlen
    | applyTag tagId ttype targetId =>
      cases hc : tagOp s tagId ttype targetId with
      | error e =>
        simpa only [Store.apply, hc] using ⟨hitems, htags⟩
      | ok a =>
        obtain ⟨row, s2⟩ := a
        obtain ⟨ht2, hi2, hreg, _, hrct, hroid, h0, hregsome, _⟩ := tagOp_ok hc
        simp only [Store.apply, hc]
        constructor
        · intro r hr
          rw [hi2] at hr
          rcases List.mem_append.mp hr with hmem | hmem
          · have hrr := hitems r hmem
            exact ⟨hrr.1, by rw [registered_congr hreg]; exact hrr.2⟩
          · rw [List.mem_singleton.mp hmem]
            refine ⟨by rw [hroid]; exact h0, ?_⟩
            rw [registered_congr hreg, hrct]
            exact hregsome
        · intro t2 ht2mem
          rw [ht2] at ht2mem
          exact htags t2 ht2mem
    | removeTag tagId ttype targetId =>
      constructor
      · intro r hr
        have hr2 : r ∈ s.items := (List.mem_filter.mp hr).1
        exact hitems r hr2
      · intro t ht
        exact htags t ht
    | deleteTag tagId =>
      constructor
      · intro r hr
        have hr2 : r ∈ s.items := (List.mem_filter.mp hr).1
        exact hitems r hr2
      · intro t ht
        have ht2 : t ∈ s.tags := (List.mem_filter.mp ht).1
        exact htags t ht2
    | deleteTarget ttype targetId =>
      simp only [Store.apply]
      constructor
      · intro r hr
        have hrr := hitems r hr
        exact ⟨hrr.1, by rw [registered_isSome_deleteTarget]; exact hrr.2⟩
      · intro t ht
        exact htags t ht

/-- The scenario state is reachable from the initial state. -/
theorem scenarioReachable : Reachable exampleRegistry scenarioStore :=
  .step _ (.step _ (.step _ .init))

/-- C1: deleting a tag deletes every `TaggedItem` row referencing it (the
`on_delete=CASCADE` of `src/tags/models.py` line 13); afterward `itemsFor`
on the deleted tag returns the empty sequence for every target type that
previously carried the tag. -/
theorem C1_delete_cascade {R : List (String × Resolver)} {s : Store}
    (hs : Reachable R s) (tagId : Nat) (ttype : String)
    (hprev : ∃ r ∈ s.items, r.tag_id = tagId ∧ r.content_type = ttype) :
    (∀ r ∈ (deleteTag s tagId).items, r.tag_id ≠ tagId) ∧
    itemsFor (deleteTag s tagId) tagId ttype = .ok [] := by
  have hgone : ∀ r ∈ (deleteTag s tagId).items, r.tag_id ≠ tagId := by
    intro r hr
    have hp := (List.mem_filter.mp hr).2
    simpa using hp
  refine ⟨hgone, ?_⟩
  obtain ⟨r0, hr0, hr0tag, hr0ct⟩ := hprev
  have hsome : (registered s ttype).isSome = true := by
    have := ((reachable_inv hs).1 r0 hr0).2
    rwa [hr0ct] at this
  obtain ⟨res, hres⟩ := Option.isSome_iff_exists.mp hsome
  have hres2 : registered (deleteTag s tagId) ttype = some res := hres
  unfold itemsFor
  rw [hres2]
  have hnil : (deleteTag s tagId).items.filter
      (fun r => r.tag_id == tagId && r.content_type == ttype) = [] := by
    rw [List.filter_eq_nil_iff]
    intro r hr
    simp only [Bool.and_eq_true, beq_iff_eq, not_and]
    intro htag
    exact absurd htag (hgone r hr)
  rw [hnil]
  rfl

/-- C1 witness: in the scenario state, deleting tag 1 removes both of its
rows and `itemsFor(1, "product")` becomes empty. -/
theorem C1_witness :
    (∀ r ∈ (deleteTag scenarioStore 1).items, r.tag_id ≠ 1) ∧
    itemsFor (deleteTag scenarioStore 1) 1 "product" = .ok [] :=
  C1_delete_cascade scenarioReachable 1 "product"
    ⟨⟨1, 1, "product", 42⟩, by decide, rfl, rfl⟩

/-- C2: for each lookup operation (`tagsFor`, `itemsFor`, `resolve`), an
unregistered target type fails with `ConfigurationError`, while a
registered target type with an identifier matching no row returns an empty
result (for `resolve`: "not found"), not an error. -/
theorem C2_lookup_semantics (s : Store) (ttype : String) (targetId : Int) (tagId : Nat) :
    (registered s ttype = none →
      tagsFor s ttype targetId = .error .configuration ∧
      itemsFor s tagId ttype = .error .configuration ∧
      resolve s ttype targetId = .error .configuration) ∧
    (∀ res, registered s ttype = some res →
      ((∀ row ∈ s.items, ¬(row.content_type = ttype ∧ row.object_id = targetId)) →
        tagsFor s ttype targetId = .ok []) ∧
      ((∀ row ∈ s.items, ¬(row.tag_id = tagId ∧ row.content_type = ttype)) →
        itemsFor s tagId ttype = .ok []) ∧
      (res targetId = none → resolve s ttype targetId = .ok none)) := by
  constructor
  · intro hnone
    unfold tagsFor itemsFor resolve
    rw [hnone]
    exact ⟨rfl, rfl, rfl⟩
  · intro res hres
    refine ⟨?_, ?_, ?_⟩
    · intro hempty
      unfold tagsFor
      rw [hres]
      have hnil : s.items.filter
          (fun r => r.content_type == ttype && r.object_id == targetId) = [] := by
        rw [List.filter_eq_nil_iff]
        intro r hr
        simpa using hempty r hr
      rw [hnil]
      rfl
    · intro hempty
      unfold itemsFor
      rw [hres]
      have hnil : s.items.filter
          (fun r => r.tag_id == tagId && r.content_type == ttype) = [] := by
        rw [List.filter_eq_nil_iff]
        intro r hr
        simpa using hempty r hr
      rw [hnil]
      rfl
    · intro hmiss
      unfold resolve
      rw [hres]
      show Except.ok (res targetId) = Except.ok none
      rw [hmiss]

/-- C2 witness: in the scenario state the type `video` is unregistered, so
all three lookups fail with `ConfigurationError`; the type `product` is
registered, so a tag id and an entity id matching no row give empty
results, and a missing product identifier resolves to "not found". -/
theorem C2_witness :
    (tagsFor scenarioStore "video" 5 = .error .configuration ∧
     itemsFor scenarioStore 1 "video" = .error .configuration ∧
     resolve scenarioStore "video" 5 = .error .configuration) ∧
    tagsFor scenarioStore "product" 999 = .ok [] ∧
    itemsFor scenarioStore 99 "product" = .ok [] ∧
    resolve scenarioStore "product" 500 = .ok none := by
  refine ⟨(C2_lookup_semantics scenarioStore "video" 5 1).1 rfl, ?_, ?_, ?_⟩
  · exact (((C2_lookup_semantics scenarioStore "product" 999 1).2 productResolver rfl).1
      (by decide))
  · exact (((C2_lookup_semantics scenarioStore "product" 5 99).2 productResolver rfl).2.1
      (by decide))
  · exact (((C2_lookup_semantics scenarioStore "product" 500 1).2 productResolver rfl).2.2
      (by decide))

/-- C9: in every reachable state, the `object_id` of every `TaggedItem`
row is non-negative, as dictated by the `PositiveIntegerField` column of
`src/tags/models.py` line 22 (identifiers are integral by the embedding's
type). -/
theorem C9_object_id_nonneg {R : List (String × Resolver)} {s : Store}
    (hs : Reachable R s) : ∀ r ∈ s.items, 0 ≤ r.object_id :=
  fun r hr => ((reachable_inv hs).1 r hr).1

/-- C9 witness: the first row of the reachable scenario state has a
non-negative `object_id`. -/
theorem C9_witness : (0 : Int) ≤ (TaggedItem.mk 1 1 "product" 42).object_id :=
  C9_object_id_nonneg scenarioReachable ⟨1, 1, "product", 42⟩ (by decide)

/-- C10: in every reachable state, every tag label is at most 255
characters (the `CharField(max_length=255)` of `src/tags/models.py` line
9), and creating a tag with a longer label is rejected. -/
theorem C10_label_bounded {R : List (String × Resolver)} {s : Store}
    (hs : Reachable R s) :
    (∀ t ∈ s.tags, t.lable.length ≤ 255) ∧
    (∀ label, 255 < label.length → createTag s label = .error .integrity) := by
  refine ⟨(reachable_inv hs).2, ?_⟩
  intro label hlong
  unfold createTag
  rw [if_pos hlong]

set_option maxRecDepth 4000 in
/-- C10 witness: the scenario tag's label fits in the column, and a
256-character label is rejected in the scenario state. -/
theorem C10_witness :
    (Tag.mk 1 "sale").lable.length ≤ 255 ∧
    createTag scenarioStore (String.mk (List.replicate 256 'a')) = .error .integrity := by
  refine ⟨(C10_label_bounded scenarioReachable).1 ⟨1, "sale"⟩ (by decide),
    (C10_label_bounded scenarioReachable).2 (String.mk (List.replicate 256 'a')) (by decide)⟩

/-- Counting tags with a given id in a `tagsFor`-style resolution reduces
to counting the underlying rows that reference that id and whose tag still
exists. -/
theorem count_tags_of_rows (s : Store) (rows : List TaggedItem) (k : Nat) :
    (rows.filterMap (fun r => findTag s r.tag_id)).countP (fun t => t.id == k) =
      rows.countP (fun r => (findTag s r.tag_id).isSome && r.tag_id == k) := by
  induction rows with
  | nil => rfl
  | cons r rows ih =>
    cases hf : findTag s r.tag_id with
    | none =>
      rw [List.filterMap_cons, hf]
      simp [List.countP_cons, hf, ih]
    | some t =>
      have ht : t.id = r.tag_id := findTag_id hf
      rw [List.filterMap_cons, hf]
      simp [List.countP_cons, hf, ih, ht]

/-- A predicate that fails on every element of a list and holds on a final
appended element is counted exactly once. -/
theorem countP_eq_one_of_append {α : Type} (l : List α) (a : α) (p : α → Bool)
    (hl : ∀ x ∈ l, p x = false) (ha : p a = true) :
    (l ++ [a]).countP p = 1 := by
  rw [List.countP_append]
  have hz : l.countP p = 0 := by
    rw [List.countP_eq_zero]
    intro x hx
    simp [hl x hx]
  simp [hz, List.countP_cons, ha]

/-- C3 counterexample: in the scenario state the association
`(1, "product", 42)` already exists; re-tagging succeeds (duplicate-insert,
since the source schema has no uniqueness constraint) and `tagsFor` then
includes tag 1 twice, not exactly once. -/
theorem C3_counterexample :
    tagOp scenarioStore 1 "product" 42 = .ok (⟨3, 1, "product", 42⟩, retagStore) ∧
    tagsFor retagStore "product" 42 = .ok [⟨1, "sale"⟩, ⟨1, "sale"⟩] := by
  constructor <;> rfl

/-- C3 (amended): if the association was not already present, then after a
successful `tag(T, type, E)` the sequence returned by `tagsFor(type, E)`
includes T exactly once. -/
theorem C3_tag_once (s : Store) (tagId : Nat) (ttype : String) (targetId : Int)
    (row : TaggedItem) (s2 : Store)
    (hfresh : ∀ r ∈ s.items, rowMatches r tagId ttype targetId = false)
    (h : tagOp s tagId ttype targetId = .ok (row, s2)) :
    ∃ l, tagsFor s2 ttype targetId = .ok l ∧ l.countP (fun t => t.id == tagId) = 1 := by
  obtain ⟨ht2, hi2, hreg, hrtag, hrct, hroid, h0, hregsome, hfindsome⟩ := tagOp_ok h
  obtain ⟨res, hres⟩ := Option.isSome_iff_exists.mp hregsome
  have hres2 : registered s2 ttype = some res := by
    rw [registered_congr hreg]
    exact hres
  refine ⟨(s2.items.filter
      (fun r => r.content_type == ttype && r.object_id == targetId)).filterMap
      (fun r => findTag s2 r.tag_id), ?_, ?_⟩
  · unfold tagsFor
    rw [hres2]
  · rw [count_tags_of_rows]
    simp only [List.countP_filter]
    rw [hi2]
    apply countP_eq_one_of_append
    · intro x hx
      have hm := hfresh x hx
      simp only [rowMatches] at hm
      cases h1 : (x.tag_id == tagId) <;>
        cases h2 : (x.content_type == ttype) <;>
        cases h3 : (x.object_id == targetId) <;>
        simp_all
    · have hfind2 : (findTag s2 tagId).isSome = true := by
        rw [findTag_congr ht2]
        exact hfindsome
      simp [hfind2, hrtag, hrct, hroid]

/-- C3 witness: in the state with only tag 1 (`sale`) and no rows, tagging
product 42 once makes `tagsFor("product", 42)` include tag 1 exactly
once. -/
theorem C3_witness :
    ∃ l, tagsFor tagged42Store "product" 42 = .ok l ∧
      l.countP (fun t => t.id == 1) = 1 :=
  C3_tag_once saleStore 1 "product" 42 tagged42Row tagged42Store (by decide) rfl

/-- C4: after `untag(T, type, E)`, the sequence returned by
`tagsFor(type, E)` does not include T. -/
theorem C4_untag_excludes (s : Store) (tagId : Nat) (ttype : String) (targetId : Int)
    (l : List Tag) (h : tagsFor (untag s tagId ttype targetId).2 ttype targetId = .ok l) :
    ∀ t ∈ l, t.id ≠ tagId := by
  intro t ht
  unfold tagsFor at h
  cases hr : registered (untag s tagId ttype targetId).2 ttype with
  | none =>
    rw [hr] at h
    exact absurd h (by simp)
  | some res =>
    rw [hr] at h
    simp only [Except.ok.injEq] at h
    subst h
    obtain ⟨r, hrmem, hrfind⟩ := List.mem_filterMap.mp ht
    have hfilter := List.mem_filter.mp hrmem
    have hid : t.id = r.tag_id := findTag_id hrfind
    have hnomatch := (List.mem_filter.mp hfilter.1).2
    intro heq
    have hcond := hfilter.2
    simp only [Bool.and_eq_true, beq_iff_eq] at hcond
    have hm : rowMatches r tagId ttype targetId = true := by
      simp [rowMatches, ← hid, heq, hcond.1, hcond.2]
    simp [hm] at hnomatch

/-- C4 witness: with tags 1 (`sale`) and 2 (`featured`) both on product 42,
untagging tag 1 leaves `tagsFor("product", 42)` equal to just tag 2, and
that remaining tag is not tag 1. -/
theorem C4_witness :
    tagsFor (untag richStore 1 "product" 42).2 "product" 42 = .ok [⟨2, "featured"⟩] ∧
    (Tag.mk 2 "featured").id ≠ 1 :=
  ⟨rfl, C4_untag_excludes richStore 1 "product" 42 [⟨2, "featured"⟩] rfl ⟨2, "featured"⟩
    (by decide)⟩

/-- C6 counterexample: tag 1 exists in `saleStore`, yet
`tag(1, "product", -1)` does not return a created association — it fails
on the `PositiveIntegerField` constraint of `src/tags/models.py` line
22. -/
theorem C6_counterexample :
    findTag saleStore 1 = some ⟨1, "sale"⟩ ∧
    tagOp saleStore 1 "product" (-1) = .error .integrity := by
  constructor <;> rfl

/-- C6 (amended): `tag` fails with `NotFoundError` when the tag id does
not exist, and no row is ever created by a failed call; when the tag
exists, the target type is registered and the target id is non-negative,
the call returns the created association. -/
theorem C6_tag_error_handling (s : Store) (tagId : Nat) (ttype : String) (targetId : Int) :
    (findTag s tagId = none → tagOp s tagId ttype targetId = .error .notFound) ∧
    (∀ t res, findTag s tagId = some t → registered s ttype = some res → 0 ≤ targetId →
      ∃ row s2, tagOp s tagId ttype targetId = .ok (row, s2) ∧
        s2.items = s.items ++ [row] ∧ row.tag_id = tagId ∧
        row.content_type = ttype ∧ row.object_id = targetId) ∧
    (∀ e, tagOp s tagId ttype targetId = .error e →
      s.apply (Op.applyTag tagId ttype targetId) = s) := by
  refine ⟨?_, ?_, ?_⟩
  · intro hnone
    unfold tagOp
    rw [hnone]
  · intro t res hft hres hge
    refine ⟨⟨s.nextItemId, tagId, ttype, targetId⟩,
      { s with items := s.items ++ [⟨s.nextItemId, tagId, ttype, targetId⟩],
               nextItemId := s.nextItemId + 1 }, ?_, rfl, rfl, rfl, rfl⟩
    unfold tagOp
    rw [hft, hres, if_neg (not_lt.mpr hge)]
  · intro e he
    simp only [Store.apply, he]

/-- C6 witness: tagging with the missing tag id 9 fails with
`NotFoundError`; tagging product 42 with the existing tag 1 returns the
created row; the failed call with target id -1 leaves the state
unchanged. -/
theorem C6_witness :
    tagOp saleStore 9 "product" 42 = .error .notFound ∧
    (∃ row s2, tagOp saleStore 1 "product" 42 = .ok (row, s2) ∧
      s2.items = saleStore.items ++ [row] ∧ row.tag_id = 1 ∧
      row.content_type = "product" ∧ row.object_id = 42) ∧
    saleStore.apply (Op.applyTag 1 "product" (-1)) = saleStore :=
  ⟨(C6_tag_error_handling saleStore 9 "product" 42).1 rfl,
   (C6_tag_error_handling saleStore 1 "product" 42).2.1 ⟨1, "sale"⟩ productResolver rfl rfl
     (by decide),
   (C6_tag_error_handling saleStore 1 "product" (-1)).2.2 .integrity rfl⟩

/-- C7: `untag` returns whether a matching row was present; every matching
row is removed; when no row matches, it returns false and leaves the store
unchanged. -/
theorem C7_untag_semantics (s : Store) (tagId : Nat) (ttype : String) (targetId : Int) :
    ((untag s tagId ttype targetId).1 =
      s.items.any (fun r => rowMatches r tagId ttype targetId)) ∧
    (∀ r ∈ (untag s tagId ttype targetId).2.items,
      rowMatches r tagId ttype targetId = false) ∧
    (s.items.any (fun r => rowMatches r tagId ttype targetId) = false →
      (untag s tagId ttype targetId).1 = false ∧ (untag s tagId ttype targetId).2 = s) := by
  refine ⟨rfl, ?_, ?_⟩
  · intro r hr
    have hp := (List.mem_filter.mp hr).2
    simpa using hp
  · intro habsent
    refine ⟨habsent, ?_⟩
    have hall := List.any_eq_false.mp habsent
    have hkeep : s.items.filter (fun r => !rowMatches r tagId ttype targetId) = s.items := by
      rw [List.filter_eq_self]
      intro r hr
      have hf : rowMatches r tagId ttype targetId = false := by
        cases hb : rowMatches r tagId ttype targetId
        · rfl
        · exact absurd hb (hall r hr)
      simp [hf]
    show { s with items := s.items.filter (fun r => !rowMatches r tagId ttype targetId) } = s
    rw [hkeep]

/-- C7 witness: untagging the present association `(1, "product", 42)`
reports a removal; untagging the absent association `(5, "product", 42)`
reports no removal and leaves the scenario state unchanged. -/
theorem C7_witness :
    (untag scenarioStore 1 "product" 42).1 = true ∧
    (untag scenarioStore 5 "product" 42).1 = false ∧
    (untag scenarioStore 5 "product" 42).2 = scenarioStore :=
  ⟨rfl, (C7_untag_semantics scenarioStore 5 "product" 42).2.2 (by decide)⟩

/-- C8: under every store operation, a `TaggedItem` row is deleted only by
`untag` of exactly that association or by deletion of the referenced tag;
deleting a target entity never deletes any association row (cascade exists
only from the `Tag` side). -/
theorem C8_row_deletion (s : Store) (op : Op) :
    (∀ r ∈ s.items, r ∉ (s.apply op).items →
      op = Op.removeTag r.tag_id r.content_type r.object_id ∨ op = Op.deleteTag r.tag_id) ∧
    (∀ ttype targetId, (s.apply (Op.deleteTarget ttype targetId)).items = s.items) := by
  constructor
  · intro r hr hnot
    cases op with
    | createTag label =>
      exfalso
      apply hnot
      cases hc : createTag s label with
      | error e =>
        simpa only [Store.apply, hc] using hr
      | ok a =>
        obtain ⟨t, s2⟩ := a
        obtain ⟨_, hi2, _, _, _⟩ := createTag_ok hc
        simp only [Store.apply, hc]
        rw [hi2]
        exact hr
    | applyTag tagId2 ttype2 targetId2 =>
      exfalso
      apply hnot
      cases hc : tagOp s tagId2 ttype2 targetId2 with
      | error e =>
        simpa only [Store.apply, hc] using hr
      | ok a =>
        obtain ⟨row, s2⟩ := a
        obtain ⟨_, hi2, _⟩ := tagOp_ok hc
        simp only [Store.apply, hc]
        rw [hi2]
        exact List.mem_append_left _ hr
    | removeTag tagId2 ttype2 targetId2 =>
      left
      have hmatch : rowMatches r tagId2 ttype2 targetId2 = true := by
        cases hb : rowMatches r tagId2 ttype2 targetId2
        · exfalso
          apply hnot
          show r ∈ s.items.filter (fun x => !rowMatches x tagId2 ttype2 targetId2)
          exact List.mem_filter.mpr ⟨hr, by simp [hb]⟩
        · rfl
      simp only [rowMatches, Bool.and_eq_true, beq_iff_eq] at hmatch
      rw [hmatch.1.1, hmatch.1.2, hmatch.2]
    | deleteTag tagId2 =>
      right
      have htag : r.tag_id = tagId2 := by
        by_contra hne
        apply hnot
        show r ∈ s.items.filter (fun x => x.tag_id != tagId2)
        exact List.mem_filter.mpr ⟨hr, by simp [hne]⟩
      rw [htag]
    | deleteTarget ttype2 targetId2 =>
      exact absurd hr hnot
  · intro ttype targetId
    rfl

/-- C8 witness: in the scenario state, the only operations that delete the
row `(1, "product", 42)` are its own `untag` or the deletion of tag 1; an
external target deletion leaves the item table untouched. -/
theorem C8_witness :
    (Op.removeTag 1 "product" 42 =
        Op.removeTag tagged42Row.tag_id tagged42Row.content_type tagged42Row.object_id ∨
      Op.removeTag 1 "product" 42 = Op.deleteTag tagged42Row.tag_id) ∧
    (scenarioStore.apply (Op.deleteTarget "product" 42)).items = scenarioStore.items :=
  ⟨(C8_row_deletion scenarioStore (Op.removeTag 1 "product" 42)).1 tagged42Row
      (by decide) (by decide),
   (C8_row_deletion scenarioStore (Op.removeTag 1 "product" 42)).2 "product" 42⟩

/-- C5: starting from the state where tag 1 (`sale`) is applied to product
42 and then to product 7, `itemsFor(1, "product")` returns exactly the
identifiers 42 and 7; after `untag(1, "product", 42)` it returns exactly
7. -/
theorem C5_scenario :
    itemsFor scenarioStore 1 "product" = .ok [42, 7] ∧
    itemsFor (untag scenarioStore 1 "product" 42).2 1 "product" = .ok [7] := by
  constructor <;> rfl

end TagStore
